import Mathlib

/-!
# Verification of the Vehicle Management API core

Shallow embedding of `src/main.py` (a FastAPI CRUD service for vehicle
records) and proofs about the identifier-generation scheme, the
request-validation / error-mapping contract, the case-insensitive lookup
contract and the scoped transaction discipline.

Machine integers are modelled as `Nat` with explicit `% 2^32` where the
32-bit arithmetic of SHA-256 overflows.  Fallible handler code is modelled
with `Except`.
-/

namespace VehicleApi

/-! ## SHA-256 (the `hashlib.sha256` digest used by `generate_vin`)

A byte is a `Nat` below 256; a word is a `Nat` below `2^32`.
-/

/-- Truncation to 32 bits. -/
def mask32 (x : Nat) : Nat := x % 4294967296

/-- Right rotation of a 32-bit word by `n` bits. -/
def rotr (n x : Nat) : Nat := mask32 ((x >>> n) ||| (x <<< (32 - n)))

/-- Bitwise complement within 32 bits. -/
def not32 (x : Nat) : Nat := x ^^^ 4294967295

/-- SHA-256 `Ch` function. -/
def ch (x y z : Nat) : Nat := (x &&& y) ^^^ (not32 x &&& z)

/-- SHA-256 `Maj` function. -/
def maj (x y z : Nat) : Nat := (x &&& y) ^^^ (x &&& z) ^^^ (y &&& z)

/-- SHA-256 big sigma-0. -/
def bigS0 (x : Nat) : Nat := rotr 2 x ^^^ rotr 13 x ^^^ rotr 22 x

/-- SHA-256 big sigma-1. -/
def bigS1 (x : Nat) : Nat := rotr 6 x ^^^ rotr 11 x ^^^ rotr 25 x

/-- SHA-256 small sigma-0. -/
def smallS0 (x : Nat) : Nat := rotr 7 x ^^^ rotr 18 x ^^^ (x >>> 3)

/-- SHA-256 small sigma-1. -/
def smallS1 (x : Nat) : Nat := rotr 17 x ^^^ rotr 19 x ^^^ (x >>> 10)

/-- The 64 SHA-256 round constants, written in decimal. -/
def sha256K : List Nat :=
  [1116352408, 1899447441, 3049323471, 3921009573, 961987163, 1508970993,
   2453635748, 2870763221, 3624381080, 310598401, 607225278, 1426881987,
   1925078388, 2162078206, 2614888103, 3248222580, 3835390401, 4022224774,
   264347078, 604807628, 770255983, 1249150122, 1555081692, 1996064986,
   2554220882, 2821834349, 2952996808, 3210313671, 3336571891, 3584528711,
   113926993, 338241895, 666307205, 773529912, 1294757372, 1396182291,
   1695183700, 1986661051, 2177026350, 2456956037, 2730485921, 2820302411,
   3259730800, 3345764771, 3516065817, 3600352804, 4094571909, 275423344,
   430227734, 506948616, 659060556, 883997877, 958139571, 1322822218,
   1537002063, 1747873779, 1955562222, 2024104815, 2227730452, 2361852424,
   2428436474, 2756734187, 3204031479, 3329325298]

/-- Big-endian byte decomposition of `n` into `k` bytes. -/
def beBytes (k n : Nat) : List Nat :=
  (List.range k).map (fun i => (n >>> (8 * (k - 1 - i))) % 256)

/-- SHA-256 padding: append `0x80`, zero bytes up to 56 mod 64, then the
bit length as 8 big-endian bytes. -/
def padMessage (msg : List Nat) : List Nat :=
  let L := msg.length
  let z := (64 - ((L + 9) % 64)) % 64
  msg ++ [0x80] ++ List.replicate z 0 ++ beBytes 8 (8 * L)

/-- Group a byte list into big-endian 32-bit words. -/
def toWords : List Nat → List Nat
  | b0 :: b1 :: b2 :: b3 :: rest =>
      (((b0 * 256 + b1) * 256 + b2) * 256 + b3) :: toWords rest
  | _ => []

/-- Split a word list into 16-word blocks (a padded message always has a
multiple of 16 words). -/
def toBlocks : List Nat → List (List Nat)
  | w0 :: w1 :: w2 :: w3 :: w4 :: w5 :: w6 :: w7 ::
    w8 :: w9 :: w10 :: w11 :: w12 :: w13 :: w14 :: w15 :: rest =>
      [w0, w1, w2, w3, w4, w5, w6, w7,
       w8, w9, w10, w11, w12, w13, w14, w15] :: toBlocks rest
  | _ => []

/-- Extend a 16-word block to the 64-word message schedule. -/
def buildW (m : List Nat) : List Nat :=
  (List.range 48).foldl
    (fun w j =>
      let i := j + 16
      w ++ [mask32 (smallS1 (w.getD (i - 2) 0) + w.getD (i - 7) 0 +
                    smallS0 (w.getD (i - 15) 0) + w.getD (i - 16) 0)])
    m

/-- The eight 32-bit words of the SHA-256 working state. -/
structure Hash8 where
  a : Nat
  b : Nat
  c : Nat
  d : Nat
  e : Nat
  f : Nat
  g : Nat
  h : Nat
deriving DecidableEq

/-- SHA-256 initial hash value, written in decimal. -/
def sha256H0 : Hash8 :=
  ⟨1779033703, 3144134277, 1013904242, 2773480762,
   1359893119, 2600822924, 528734635, 1541459225⟩

/-- One SHA-256 round. -/
def round (s : Hash8) (wk : Nat × Nat) : Hash8 :=
  let t1 := mask32 (s.h + bigS1 s.e + ch s.e s.f s.g + wk.2 + wk.1)
  let t2 := mask32 (bigS0 s.a + maj s.a s.b s.c)
  ⟨mask32 (t1 + t2), s.a, s.b, s.c, mask32 (s.d + t1), s.e, s.f, s.g⟩

/-- Process a 16-word block. -/
def processBlock (H : Hash8) (block : List Nat) : Hash8 :=
  let w := buildW block
  let s := (w.zip sha256K).foldl round H
  ⟨mask32 (H.a + s.a), mask32 (H.b + s.b), mask32 (H.c + s.c),
   mask32 (H.d + s.d), mask32 (H.e + s.e), mask32 (H.f + s.f),
   mask32 (H.g + s.g), mask32 (H.h + s.h)⟩

/-- SHA-256 digest of a byte sequence, as a list of 32 bytes. -/
def sha256Bytes (msg : List Nat) : List Nat :=
  let H := (toBlocks (toWords (padMessage msg))).foldl processBlock sha256H0
  beBytes 4 H.a ++ beBytes 4 H.b ++ beBytes 4 H.c ++ beBytes 4 H.d ++
  beBytes 4 H.e ++ beBytes 4 H.f ++ beBytes 4 H.g ++ beBytes 4 H.h

/-- Code points of a string (agrees with its UTF-8 bytes on the ASCII
strings produced by decimal representations). -/
def strBytes (s : String) : List Nat := s.data.map Char.toNat

/-! ## Identifier generation (`generate_vin` in `src/main.py`)

```python
def generate_vin(vehicle_id: int) -> str:
    chars = '0123456789ABCDEFGHJKLMNPRSTUVWXYZ'  # No I, O, Q
    hash_bytes = hashlib.sha256(str(vehicle_id).encode()).digest()
    vin = ''.join(chars[hash_bytes[i] % len(chars)] for i in range(17))
    return vin
```
-/

/-- The VIN alphabet of `generate_vin`, transcribed from the source. -/
def vinChars : List Char := "0123456789ABCDEFGHJKLMNPRSTUVWXYZ".data

/-- The function `generate_vin`: digest the decimal representation of the id, and pick
one alphabet symbol per digest byte, reduced modulo the alphabet size
(`len(chars)`), for the first 17 bytes.  `toString` on `Int` matches
Python `str` on integers (including the `-` sign). -/
def generate_vin (vehicle_id : Int) : String :=
  let hashBytes := sha256Bytes (strBytes (toString vehicle_id))
  ⟨(List.range 17).map (fun i => vinChars.getD (hashBytes.getD i 0 % vinChars.length) 'A')⟩

/-! ## The spec's description of the generator (§4.1), for refinement

These definitions follow the wording of the specification, not the
source: the alphabet is described as "digits and uppercase letters
excluding I, O, Q", claimed to hold 34 symbols, and each of the first 17
digest bytes is mapped "via `byte mod 34`". -/

/-- Modelled from the spec: "digits and uppercase letters excluding I, O,
Q". -/
def specAlphabet : List Char :=
  (((List.range 10).map (fun i => Char.ofNat (48 + i))) ++
   ((List.range 26).map (fun i => Char.ofNat (65 + i)))).filter
    (fun c => c ≠ 'I' ∧ c ≠ 'O' ∧ c ≠ 'Q')

/-- Modelled from the spec, literally: map each of the first 17 digest
bytes of the decimal representation to a symbol of the alphabet via
`byte mod 34`. -/
def specGenerate34 (n : Int) : String :=
  ⟨((sha256Bytes (strBytes (toString n))).take 17).map
    (fun b => specAlphabet.getD (b % 34) 'A')⟩

/-- The spec's algorithm amended to the actual alphabet size 33: map each
of the first 17 digest bytes via `byte mod 33`. -/
def specGenerate33 (n : Int) : String :=
  ⟨((sha256Bytes (strBytes (toString n))).take 17).map
    (fun b => specAlphabet.getD (b % 33) 'A')⟩

/-! ## ASCII case folding

Both Python's `str.lower()`/`str.upper()` and PostgreSQL's
`LOWER()` act as the basic-latin case maps on the ASCII strings at play
(VINs and URL path segments restricted to ASCII); `Char.toLower` /
`Char.toUpper` implement exactly those maps. -/

/-- Python `s.lower()` / SQL `LOWER(s)` on ASCII text. -/
def lowerStr (s : String) : String := ⟨s.data.map Char.toLower⟩

/-- Python `s.upper()` / SQL `UPPER(s)` on ASCII text. -/
def upperStr (s : String) : String := ⟨s.data.map Char.toUpper⟩

/-! ## Request/response schema (`VehicleCreate`, `VehicleResponse`)

`purchase_price` is a `float` in the source; the claims under study never
compute with it, so it is modelled as an exact numeral (`Rat`). -/

/-- A validated create/update payload (pydantic `VehicleCreate`). -/
structure VehicleCreate where
  manufacturer_name : String
  description : Option String
  horse_power : Int
  model_name : String
  model_year : Int
  purchase_price : Rat
  fuel_type : String
deriving DecidableEq

/-- A stored vehicle row; `VehicleResponse` in the source carries exactly
these fields. -/
structure Vehicle where
  vin : String
  manufacturer_name : String
  description : Option String
  horse_power : Int
  model_name : String
  model_year : Int
  purchase_price : Rat
  fuel_type : String
deriving DecidableEq

/-- A decoded but not yet validated JSON body: each field may be absent. -/
structure RawPayload where
  manufacturer_name : Option String
  description : Option String
  horse_power : Option Int
  model_name : Option String
  model_year : Option Int
  purchase_price : Option Rat
  fuel_type : Option String

/-- One field-level violation, as in pydantic's `exc.errors()`: the field
path and the violation kind. -/
structure FieldError where
  loc : String
  type : String
deriving DecidableEq

/-- Violations of one string field declaration
`Field(..., min_length=?, max_length=m)`. -/
def strFieldErrors (name : String) (minLen : Option Nat) (maxLen : Nat)
    (v : Option String) : List FieldError :=
  match v with
  | none => [⟨name, "missing"⟩]
  | some s =>
      (match minLen with
       | some m => if s.length < m then [⟨name, "string_too_short"⟩] else []
       | none => []) ++
      (if maxLen < s.length then [⟨name, "string_too_long"⟩] else [])

/-- Violations of a required non-string field (presence only; a decoded
payload is already well-typed in this embedding). -/
def reqFieldErrors (name : String) (present : Bool) : List FieldError :=
  if present then [] else [⟨name, "missing"⟩]

/-- All field violations of a payload against the `VehicleCreate`
declarations: `manufacturer_name`/`model_name` are `Field(..., min_length=1,
max_length=255)`, `fuel_type` is `Field(..., max_length=50)` (no minimum),
`description` is optional and unconstrained, the numeric fields are
required. -/
def fieldErrors (p : RawPayload) : List FieldError :=
  strFieldErrors "manufacturer_name" (some 1) 255 p.manufacturer_name ++
  reqFieldErrors "horse_power" p.horse_power.isSome ++
  strFieldErrors "model_name" (some 1) 255 p.model_name ++
  reqFieldErrors "model_year" p.model_year.isSome ++
  reqFieldErrors "purchase_price" p.purchase_price.isSome ++
  strFieldErrors "fuel_type" none 50 p.fuel_type

/-- Pydantic validation of a decoded payload: either the full list of
violations, or the validated `VehicleCreate` value. -/
def validateVehicleCreate (p : RawPayload) : Except (List FieldError) VehicleCreate :=
  match p.manufacturer_name, p.horse_power, p.model_name,
        p.model_year, p.purchase_price, p.fuel_type with
  | some mn, some hp', some mo, some my, some pp, some ft =>
      if (fieldErrors p).isEmpty then .ok ⟨mn, p.description, hp', mo, my, pp, ft⟩
      else .error (fieldErrors p)
  | _, _, _, _, _, _ => .error (fieldErrors p)

/-! ## The custom `RequestValidationError` handler (400 vs 422) -/

/-- The handler `validation_exception_handler`: scan `exc.errors()`; any error of type
`json_invalid` or `json_type` means the body could not be parsed → 400,
otherwise → 422; either way the full error list is returned. Result:
(status code, detail, errors). -/
def validation_exception_handler (errors : List FieldError) :
    Nat × String × List FieldError :=
  if errors.any (fun e => e.type = "json_invalid" || e.type = "json_type")
  then (400, "Invalid JSON format - cannot parse request body", errors)
  else (422, "Validation error - invalid or missing fields", errors)

/-- A request body as the framework hands it over: either not parseable
as JSON at all, or a decoded payload. -/
inductive RequestBody where
  | malformed
  | wellFormed (p : RawPayload)

/-- Modelled from the spec (§4.4 Decode/Validate) together with the
handler registration in the source: a syntactically invalid body raises a
`RequestValidationError` whose single error has type `json_invalid`; a
decoded body that fails schema validation raises one carrying the
validator's violations; both are answered by
`validation_exception_handler`. -/
def processRequest (b : RequestBody) :
    Except (Nat × String × List FieldError) VehicleCreate :=
  match b with
  | .malformed => .error (validation_exception_handler [⟨"body", "json_invalid"⟩])
  | .wellFormed p =>
      match validateVehicleCreate p with
      | .ok v => .ok v
      | .error es => .error (validation_exception_handler es)

/-! ## Persistence operations (the SQL in the route handlers)

The vehicle table is a row list; `fetchone` on an unordered `SELECT` is
the first matching row.  All three keyed statements compare
`LOWER(vin) = LOWER(%s)`. -/

/-- Statement `SELECT * FROM vehicles WHERE LOWER(vin) = LOWER(%s)` plus `fetchone`. -/
def findByVin (store : List Vehicle) (vin : String) : Option Vehicle :=
  store.find? (fun v => lowerStr v.vin = lowerStr vin)

/-- The row a successful `POST /vehicle` stores and returns: the derived
VIN together with the payload's fields. -/
def createdRecord (seq : Int) (p : VehicleCreate) : Vehicle :=
  ⟨generate_vin seq, p.manufacturer_name, p.description, p.horse_power,
   p.model_name, p.model_year, p.purchase_price, p.fuel_type⟩

/-- The `SET` clause of the `UPDATE`: every field except `vin` is
replaced. -/
def applyUpdate (v : Vehicle) (p : VehicleCreate) : Vehicle :=
  { v with manufacturer_name := p.manufacturer_name,
           description := p.description,
           horse_power := p.horse_power,
           model_name := p.model_name,
           model_year := p.model_year,
           purchase_price := p.purchase_price,
           fuel_type := p.fuel_type }

/-- Statement `UPDATE vehicles SET ... WHERE LOWER(vin) = LOWER(%s) RETURNING ...` plus
`fetchone`: the new table and the first returned row, if any. -/
def updateByVin (store : List Vehicle) (vin : String) (p : VehicleCreate) :
    List Vehicle × Option Vehicle :=
  (store.map (fun v => if lowerStr v.vin = lowerStr vin then applyUpdate v p else v),
   (store.find? (fun v => lowerStr v.vin = lowerStr vin)).map (fun v => applyUpdate v p))

/-- Statement `DELETE FROM vehicles WHERE LOWER(vin) = LOWER(%s) RETURNING vin` plus
`fetchone`: the new table and the first deleted vin, if any. -/
def deleteByVin (store : List Vehicle) (vin : String) :
    List Vehicle × Option String :=
  (store.filter (fun v => ¬ (lowerStr v.vin = lowerStr vin)),
   (store.find? (fun v => lowerStr v.vin = lowerStr vin)).map (fun v => v.vin))

/-! ## Route handlers and their exception mapping -/

/-- An `HTTPException`: status code and detail message. -/
structure HttpError where
  status : Nat
  detail : String
deriving DecidableEq

/-- The `except Exception as e: raise HTTPException(500, generic)` block
that closes each CRUD handler.  `HTTPException` is a subclass of
`Exception` in Python, so an `HTTPException` raised inside the `try:` body
(such as the 404) is also caught here and replaced by the generic 500. -/
def catchAll {α : Type} (generic : String) (inner : Except HttpError α) :
    Except HttpError α :=
  match inner with
  | .ok a => .ok a
  | .error _ => .error ⟨500, generic⟩

/-- Route `GET /vehicle/{vin}` (`get_vehicle_by_vin`): look the row up; raise
`HTTPException(404, "Vehicle not found")` inside the `try:` when absent;
the trailing `except Exception` then maps every raised exception to
`HTTPException(500, "Failed to retrieve vehicle")`. -/
def get_vehicle_by_vin (store : List Vehicle) (vin : String) :
    Except HttpError Vehicle :=
  catchAll "Failed to retrieve vehicle" <|
    match findByVin store vin with
    | none => .error ⟨404, "Vehicle not found"⟩
    | some v => .ok v

/-- Route `PUT /vehicle/{vin}` (`update_vehicle`): run the `UPDATE`; a missing
row raises `HTTPException(404)` inside the `try:` (rolling the transaction
back), which the trailing `except Exception` maps to a generic 500.
Returns the response and the committed table. -/
def update_vehicle (store : List Vehicle) (vin : String) (p : VehicleCreate) :
    Except HttpError Vehicle × List Vehicle :=
  let r := updateByVin store vin p
  match r.2 with
  | none => (catchAll "Failed to update vehicle" (.error ⟨404, "Vehicle not found"⟩), store)
  | some v => (.ok v, r.1)

/-- Route `DELETE /vehicle/{vin}` (`delete_vehicle`): run the `DELETE`; a
missing row raises `HTTPException(404)` inside the `try:` (rolling the
transaction back), which the trailing `except Exception` maps to a
generic 500.  Success is 204 with empty body. -/
def delete_vehicle (store : List Vehicle) (vin : String) :
    Except HttpError Unit × List Vehicle :=
  let r := deleteByVin store vin
  match r.2 with
  | none => (catchAll "Failed to delete vehicle" (.error ⟨404, "Vehicle not found"⟩), store)
  | some _ => (.ok (), r.1)

/-- Route `POST /vehicle` (`create_vehicle`): obtain the next sequence value,
derive the VIN, insert the row (the unique constraint on `vin` makes the
insert fail on an exact duplicate, which the `except Exception` maps to a
generic 500).  Returns the `RETURNING` row and the committed table. -/
def create_vehicle (store : List Vehicle) (seq : Int) (p : VehicleCreate) :
    Except HttpError Vehicle × List Vehicle :=
  let vin := generate_vin seq
  let r : Vehicle := createdRecord seq p
  if store.any (fun v => v.vin = vin) then
    (catchAll "Failed to create new vehicle" (.error ⟨500, "unique violation"⟩), store)
  else
    (.ok r, store ++ [r])

/-- Route `GET /` (`root`): probe the database (`SELECT version()`); on success
answer the fixed healthy body, on any exception raise
`HTTPException(503, f"Database connection failed: {str(e)}")` — note the
`str(e)` interpolation.  The 503 is raised in the `except` block, outside
the `try:`, so it propagates as is. -/
def root (probe : Except String String) :
    Except HttpError (String × String × String) :=
  match probe with
  | .ok _ => .ok ("Vehicle Management API is running", "healthy", "connected")
  | .error msg => .error ⟨503, "Database connection failed: " ++ msg⟩

/-! ## The scoped connection manager (`get_db_connection`)

```python
conn = None
try:
    conn = psycopg2.connect(DATABASE_URL)
    yield conn
    conn.commit()
except Exception as e:
    if conn: conn.rollback()
    raise e
finally:
    if conn: conn.close()
```

The durable database state is a value of an arbitrary type `σ`; the body
computes a candidate new state or raises.  The events record what the
connection object was asked to do, in order. -/

/-- Observable actions on the connection. -/
inductive ConnEvent where
  | connected
  | committed
  | rolledBack
  | closed
deriving DecidableEq

/-- Outcome of one scoped transaction. -/
inductive TxnResult (σ ε : Type) where
  | success (s : σ)
  | connectError
  | opError (e : ε)

/-- The manager `get_db_connection` wrapped around one operation `body`: if
`psycopg2.connect` fails, `conn` is still `None`, so neither rollback nor
close runs and the error propagates; if `body` raises, the transaction is
rolled back (the durable state stays `db`), the connection closed and the
error re-raised; otherwise the candidate state is committed and the
connection closed.  Result: (durable state, outcome, connection events). -/
def get_db_connection {σ ε : Type} (connectOk : Bool) (body : σ → Except ε σ)
    (db : σ) : σ × TxnResult σ ε × List ConnEvent :=
  if connectOk then
    match body db with
    | .ok db' => (db', .success db', [.connected, .committed, .closed])
    | .error e => (db, .opError e, [.connected, .rolledBack, .closed])
  else
    (db, .connectError, [])

/-! ## Concrete fixtures for witnesses and counterexamples -/

/-- The valid sample payload of the spec's §8 scenario. -/
def pSampleV : VehicleCreate :=
  ⟨"Honda", some "Blue sedan", 192, "Accord", 2021, 25000, "Gasoline"⟩

/-- A stored row with a VIN unrelated to `NONEXISTENT12345`. -/
def sampleStoredVehicle : Vehicle :=
  ⟨"1HGBH41JXMN109186", "Tesla", none, 450, "Model S", 2022, 85000, "Electric"⟩

/-- A decoded payload whose `fuel_type` is the empty string and whose
other fields satisfy every constraint. -/
def pEmptyFuel : RawPayload :=
  ⟨some "Honda", some "Blue sedan", some 192, some "Accord", some 2021,
   some 25000, some ""⟩

/-- A decoded payload with `fuel_type` absent. -/
def pNoFuel : RawPayload :=
  ⟨some "Honda", some "Blue sedan", some 192, some "Accord", some 2021,
   some 25000, none⟩

/-- A decoded payload whose `fuel_type` has 51 characters. -/
def pLongFuel : RawPayload :=
  ⟨some "Honda", some "Blue sedan", some 192, some "Accord", some 2021,
   some 25000, some "GasolineGasolineGasolineGasolineGasolineGasolineGas"⟩

/-- A decoded payload missing its `manufacturer_name`. -/
def pMissingMan : RawPayload :=
  ⟨none, some "Blue sedan", some 192, some "Accord", some 2021,
   some 25000, some "Gasoline"⟩

/-! # Theorems -/

set_option maxRecDepth 40000 in
/-- Sanity check of the digest embedding against the FIPS 180-4 test
vector for the empty message. -/
theorem sha256_empty_vector : sha256Bytes [] =
    [0xe3, 0xb0, 0xc4, 0x42, 0x98, 0xfc, 0x1c, 0x14,
     0x9a, 0xfb, 0xf4, 0xc8, 0x99, 0x6f, 0xb9, 0x24,
     0x27, 0xae, 0x41, 0xe4, 0x64, 0x9b, 0x93, 0x4c,
     0xa4, 0x95, 0x99, 0x1b, 0x78, 0x52, 0xb8, 0x55] := by decide

set_option maxRecDepth 40000 in
/-- Sanity check of the digest embedding against the FIPS 180-4 test
vector for the message `"abc"`. -/
theorem sha256_abc_vector : sha256Bytes (strBytes "abc") =
    [0xba, 0x78, 0x16, 0xbf, 0x8f, 0x01, 0xcf, 0xea,
     0x41, 0x41, 0x40, 0xde, 0x5d, 0xae, 0x22, 0x23,
     0xb0, 0x03, 0x61, 0xa3, 0x96, 0x17, 0x7a, 0x9c,
     0xb4, 0x10, 0xff, 0x61, 0xf2, 0x00, 0x15, 0xad] := by decide

/-- The digest always has 32 bytes. -/
theorem sha256Bytes_length (msg : List Nat) : (sha256Bytes msg).length = 32 := by
  simp [sha256Bytes, beBytes]

/-- Indexing the VIN alphabet modulo 33 never yields `I`, `O` or `Q`. -/
theorem vinChars_getD_mod (k : Nat) :
    vinChars.getD (k % 33) 'A' ≠ 'I' ∧ vinChars.getD (k % 33) 'A' ≠ 'O' ∧
    vinChars.getD (k % 33) 'A' ≠ 'Q' := by
  have hb : k % 33 < 33 := Nat.mod_lt k (by omega)
  revert hb
  generalize k % 33 = m
  revert m
  decide

/-- Reading the first 17 entries of a list by position equals taking the
17-element prefix, whenever the list is long enough. -/
theorem range_map_getD_eq_take_map (l : List Nat) (f : Nat → Char)
    (h : 17 ≤ l.length) :
    (List.range 17).map (fun i => f (l.getD i 0)) = (l.take 17).map f := by
  apply List.ext_getElem
  · simp [Nat.min_eq_left h]
  · intro i h1 h2
    have hi : i < 17 := by simpa using h1
    have hil : i < l.length := lt_of_lt_of_le hi h
    simp [List.getD_eq_getElem?_getD, List.getElem?_eq_getElem hil]

/-- C3: for every integer `n`, `generate_vin n` is exactly 17 characters
long and contains none of the characters `I`, `O`, `Q`. -/
theorem generate_vin_length_and_alphabet (n : Int) :
    (generate_vin n).length = 17 ∧
    'I' ∉ (generate_vin n).data ∧
    'O' ∉ (generate_vin n).data ∧
    'Q' ∉ (generate_vin n).data := by
  have hch : ∀ (c : Char), c ∈ (generate_vin n).data →
      c ≠ 'I' ∧ c ≠ 'O' ∧ c ≠ 'Q' := by
    intro c hc
    simp only [generate_vin, List.mem_map, List.mem_range] at hc
    obtain ⟨i, -, hfi⟩ := hc
    rw [← hfi]
    show vinChars.getD _ 'A' ≠ 'I' ∧ _ ∧ _
    have : vinChars.length = 33 := by decide
    rw [this]
    exact vinChars_getD_mod _
  refine ⟨?_, ?_, ?_, ?_⟩
  · simp [generate_vin, String.length]
  · intro h; exact (hch _ h).1 rfl
  · intro h; exact (hch _ h).2.1 rfl
  · intro h; exact (hch _ h).2.2 rfl

set_option maxRecDepth 40000 in
/-- C2 counterexample: the alphabet written in the source has 33 symbols,
not 34, and the generator's output at sequence value 1 differs from the
spec's literal "byte mod 34" construction. -/
theorem generator_mod34_claim_false :
    specAlphabet.length ≠ 34 ∧ generate_vin 1 ≠ specGenerate34 1 := by
  constructor
  · decide
  · decide

/-- C2 (amended): for every integer `n`, the generator computes the
SHA-256 digest of the decimal string representation of `n` and maps each
of the first 17 digest bytes to one symbol of the 33-symbol alphabet
(digits and uppercase letters excluding I, O, Q) via `byte mod 33`,
concatenating the symbols in order. -/
theorem generator_digest_mod33_spec (n : Int) :
    generate_vin n = specGenerate33 n ∧ specAlphabet.length = 33 := by
  refine ⟨?_, by decide⟩
  have halph : specAlphabet = vinChars := by decide
  have hlen : vinChars.length = 33 := by decide
  have hlong : 17 ≤ (sha256Bytes (strBytes (toString n))).length := by
    rw [sha256Bytes_length]; omega
  simp only [generate_vin, specGenerate33, halph, hlen]
  exact congrArg String.mk
    (range_map_getD_eq_take_map _ (fun b => vinChars.getD (b % 33) 'A') hlong)

/-- C8: the generator is deterministic — evaluating it twice at the same
sequence value yields identical output (it is a pure function of `n` in
this embedding, with no state to depend on). -/
theorem generate_vin_deterministic (n : Int) :
    generate_vin n = generate_vin n := rfl

set_option maxRecDepth 40000 in
/-- Round-tripping a code point below 256 through `Char` is lossless. -/
theorem charOfNat_toNat : ∀ n : Nat, n < 256 → (Char.ofNat n).toNat = n := by
  decide

/-- ASCII lowercasing is idempotent. -/
theorem toLower_idem (c : Char) : c.toLower.toLower = c.toLower := by
  by_cases h : 65 ≤ c.toNat ∧ c.toNat ≤ 90
  · have h1 : c.toLower = Char.ofNat (c.toNat + 32) := by
      show (if c.toNat ≥ 65 ∧ c.toNat ≤ 90 then Char.ofNat (c.toNat + 32) else c) = _
      exact if_pos h
    have ht : (Char.ofNat (c.toNat + 32)).toNat = c.toNat + 32 :=
      charOfNat_toNat _ (by omega)
    rw [h1]
    show (if (Char.ofNat (c.toNat + 32)).toNat ≥ 65 ∧
            (Char.ofNat (c.toNat + 32)).toNat ≤ 90
          then Char.ofNat ((Char.ofNat (c.toNat + 32)).toNat + 32)
          else Char.ofNat (c.toNat + 32)) = Char.ofNat (c.toNat + 32)
    rw [if_neg]
    rw [ht]; omega
  · have h1 : c.toLower = c := by
      show (if c.toNat ≥ 65 ∧ c.toNat ≤ 90 then Char.ofNat (c.toNat + 32) else c) = c
      exact if_neg h
    rw [h1, h1]

/-- Lowercasing after uppercasing agrees with plain lowercasing. -/
theorem toLower_toUpper (c : Char) : c.toUpper.toLower = c.toLower := by
  by_cases h : 97 ≤ c.toNat ∧ c.toNat ≤ 122
  · have h1 : c.toUpper = Char.ofNat (c.toNat - 32) := by
      show (if c.toNat ≥ 97 ∧ c.toNat ≤ 122 then Char.ofNat (c.toNat - 32) else c) = _
      exact if_pos h
    have ht : (Char.ofNat (c.toNat - 32)).toNat = c.toNat - 32 :=
      charOfNat_toNat _ (by omega)
    have h2 : c.toLower = c := by
      show (if c.toNat ≥ 65 ∧ c.toNat ≤ 90 then Char.ofNat (c.toNat + 32) else c) = c
      exact if_neg (by omega)
    rw [h1, h2]
    show (if (Char.ofNat (c.toNat - 32)).toNat ≥ 65 ∧
            (Char.ofNat (c.toNat - 32)).toNat ≤ 90
          then Char.ofNat ((Char.ofNat (c.toNat - 32)).toNat + 32)
          else Char.ofNat (c.toNat - 32)) = c
    rw [if_pos (by rw [ht]; omega), ht]
    have h3 : c.toNat - 32 + 32 = c.toNat := by omega
    rw [h3, Char.ofNat_toNat]
  · have h1 : c.toUpper = c := by
      show (if c.toNat ≥ 97 ∧ c.toNat ≤ 122 then Char.ofNat (c.toNat - 32) else c) = c
      exact if_neg h
    rw [h1]

/-- ASCII string lowercasing is idempotent. -/
theorem lowerStr_lowerStr (s : String) : lowerStr (lowerStr s) = lowerStr s := by
  simp [lowerStr, List.map_map, Function.comp_def, toLower_idem]

/-- Lowercasing an uppercased string agrees with lowercasing it. -/
theorem lowerStr_upperStr (s : String) : lowerStr (upperStr s) = lowerStr s := by
  simp [lowerStr, upperStr, List.map_map, Function.comp_def, toLower_toUpper]

/-- C6: fetching, updating and deleting by the all-lowercase or
all-uppercase form of a key give exactly the results of the original
casing, so a stored record resolves identically under every such
variant. -/
theorem lookup_case_insensitive (store : List Vehicle) (key : String)
    (p : VehicleCreate) :
    findByVin store (lowerStr key) = findByVin store key ∧
    findByVin store (upperStr key) = findByVin store key ∧
    updateByVin store (lowerStr key) p = updateByVin store key p ∧
    updateByVin store (upperStr key) p = updateByVin store key p ∧
    deleteByVin store (lowerStr key) = deleteByVin store key ∧
    deleteByVin store (upperStr key) = deleteByVin store key := by
  simp only [findByVin, updateByVin, deleteByVin, lowerStr_lowerStr,
    lowerStr_upperStr, and_self]

/-- C4 counterexample: a payload whose `fuel_type` is the empty string
(and whose other fields are valid) passes validation — `fuel_type` has a
`max_length` but no `min_length` in the source. -/
theorem empty_fuel_type_is_accepted :
    pEmptyFuel.fuel_type = some "" ∧
    validateVehicleCreate pEmptyFuel =
      .ok ⟨"Honda", some "Blue sedan", 192, "Accord", 2021, 25000, ""⟩ :=
  ⟨rfl, rfl⟩

/-- C4 (amended): the input schema rejects any payload whose `fuel_type`
is missing or longer than 50 characters — `fuel_type` is required with at
most 50 characters, but the empty string is accepted. -/
theorem fuel_type_required_and_max50 (p : RawPayload) :
    (p.fuel_type = none → (validateVehicleCreate p).isOk = false) ∧
    (∀ s, p.fuel_type = some s → 50 < s.length →
      (validateVehicleCreate p).isOk = false) := by
  rcases p with ⟨mn, de, hp, mo, my, pp, ft⟩
  constructor
  · intro hft
    cases hft
    cases mn <;> cases hp <;> cases mo <;> cases my <;> cases pp <;> rfl
  · intro s hft h50
    cases hft
    cases mn <;> cases hp <;> cases mo <;> cases my <;> cases pp <;>
      simp [validateVehicleCreate, fieldErrors, strFieldErrors,
        reqFieldErrors, h50, Except.isOk, Except.toBool]

/-- C4 witness: the amended constraint at two concrete payloads — one
with `fuel_type` absent, one with a 51-character `fuel_type`. -/
theorem fuel_type_required_and_max50_witness :
    (validateVehicleCreate pNoFuel).isOk = false ∧
    (validateVehicleCreate pLongFuel).isOk = false :=
  ⟨(fuel_type_required_and_max50 pNoFuel).1 rfl,
   (fuel_type_required_and_max50 pLongFuel).2
     "GasolineGasolineGasolineGasolineGasolineGasolineGas" rfl (by decide)⟩

/-- Validation failures always report the full computed violation list. -/
theorem validate_error_eq_fieldErrors (p : RawPayload) (es : List FieldError)
    (h : validateVehicleCreate p = .error es) : es = fieldErrors p := by
  rcases p with ⟨mn, de, hp, mo, my, pp, ft⟩
  cases mn <;> cases hp <;> cases mo <;> cases my <;> cases pp <;> cases ft <;>
    simp only [validateVehicleCreate] at h <;>
    first
    | exact (Except.error.inj h).symm
    | (split at h <;>
        first
        | exact Except.noConfusion h
        | exact (Except.error.inj h).symm)

/-- Violations of a string field are always field-constraint kinds. -/
theorem strFieldErrors_kinds (name : String) (minLen : Option Nat)
    (maxLen : Nat) (v : Option String) :
    ∀ e ∈ strFieldErrors name minLen maxLen v,
      e.type = "missing" ∨ e.type = "string_too_short" ∨
      e.type = "string_too_long" := by
  intro e he
  cases v with
  | none => simp [strFieldErrors] at he; simp [he]
  | some s =>
      cases minLen with
      | none =>
          simp only [strFieldErrors, List.nil_append] at he
          split_ifs at he <;> simp_all
      | some m =>
          simp only [strFieldErrors] at he
          rcases List.mem_append.mp he with h | h <;> split_ifs at h <;> simp_all

/-- Violations of a required non-string field are always `missing`. -/
theorem reqFieldErrors_kinds (name : String) (present : Bool) :
    ∀ e ∈ reqFieldErrors name present,
      e.type = "missing" ∨ e.type = "string_too_short" ∨
      e.type = "string_too_long" := by
  intro e he
  unfold reqFieldErrors at he
  split_ifs at he <;> simp_all

/-- Every violation the validator can produce is a field-constraint kind,
never a JSON-parse kind. -/
theorem fieldErrors_kinds (p : RawPayload) :
    ∀ e ∈ fieldErrors p,
      e.type = "missing" ∨ e.type = "string_too_short" ∨
      e.type = "string_too_long" := by
  intro e he
  simp only [fieldErrors, List.mem_append] at he
  rcases he with ((((h | h) | h) | h) | h) | h
  · exact strFieldErrors_kinds _ _ _ _ e h
  · exact reqFieldErrors_kinds _ _ e h
  · exact strFieldErrors_kinds _ _ _ _ e h
  · exact reqFieldErrors_kinds _ _ e h
  · exact reqFieldErrors_kinds _ _ e h
  · exact strFieldErrors_kinds _ _ _ _ e h

/-- C5: an unparseable body is answered 400 with the parse errors, while
a parseable body that fails schema validation is answered 422 carrying
the validator's full violation list; the two statuses never coincide. -/
theorem malformed_400_schema_422 (p : RawPayload) (es : List FieldError)
    (h : validateVehicleCreate p = .error es) :
    processRequest .malformed =
      .error (400, "Invalid JSON format - cannot parse request body",
        [⟨"body", "json_invalid"⟩]) ∧
    processRequest (.wellFormed p) =
      .error (422, "Validation error - invalid or missing fields", es) := by
  refine ⟨rfl, ?_⟩
  have hes : es = fieldErrors p := validate_error_eq_fieldErrors p es h
  have hany : es.any
      (fun e => e.type = "json_invalid" || e.type = "json_type") = false := by
    rw [List.any_eq_false]
    intro e he
    have hk := fieldErrors_kinds p e (hes ▸ he)
    rcases hk with hk | hk | hk <;> rw [hk] <;> decide
  simp [processRequest, h, validation_exception_handler, hany]

/-- C5 witness: the classification at a malformed body and at a decoded
body missing its `manufacturer_name`. -/
theorem malformed_400_schema_422_witness :
    processRequest .malformed =
      .error (400, "Invalid JSON format - cannot parse request body",
        [⟨"body", "json_invalid"⟩]) ∧
    processRequest (.wellFormed pMissingMan) =
      .error (422, "Validation error - invalid or missing fields",
        [⟨"manufacturer_name", "missing"⟩]) :=
  malformed_400_schema_422 pMissingMan [⟨"manufacturer_name", "missing"⟩] rfl

/-- C1 (bug evaluation): on a store that does not contain the requested
identifier, fetch, update and delete all answer 500 with the generic
failure message — not 404 — because the `HTTPException(404)` raised
inside each handler's `try:` block is caught by its own
`except Exception` clause and replaced by a generic 500. -/
theorem missing_vin_returns_500 :
    get_vehicle_by_vin [sampleStoredVehicle] "NONEXISTENT12345" =
      .error ⟨500, "Failed to retrieve vehicle"⟩ ∧
    (update_vehicle [sampleStoredVehicle] "NONEXISTENT12345" pSampleV).1 =
      .error ⟨500, "Failed to update vehicle"⟩ ∧
    (delete_vehicle [sampleStoredVehicle] "NONEXISTENT12345").1 =
      .error ⟨500, "Failed to delete vehicle"⟩ :=
  ⟨rfl, rfl, rfl⟩

/-- Appending a case-insensitively fresh row makes it the row found under
its own vin. -/
theorem findByVin_append_self (l : List Vehicle) (r : Vehicle)
    (h : ∀ v ∈ l, lowerStr v.vin ≠ lowerStr r.vin) :
    findByVin (l ++ [r]) r.vin = some r := by
  have h1 : l.find? (fun v => lowerStr v.vin = lowerStr r.vin) = none := by
    rw [List.find?_eq_none]
    intro v hv
    simpa using h v hv
  simp [findByVin, List.find?_append, h1]

/-- C9: creating a record whose derived identifier is fresh for the store
and then fetching by the identifier of the returned record yields a
record equal to the created one in all fields. -/
theorem create_then_fetch_roundtrip (store : List Vehicle) (seq : Int)
    (p : VehicleCreate)
    (hfresh : ∀ v ∈ store, lowerStr v.vin ≠ lowerStr (generate_vin seq)) :
    (create_vehicle store seq p).1 = .ok (createdRecord seq p) ∧
    get_vehicle_by_vin (create_vehicle store seq p).2 (createdRecord seq p).vin =
      .ok (createdRecord seq p) ∧
    (createdRecord seq p).manufacturer_name = p.manufacturer_name ∧
    (createdRecord seq p).description = p.description ∧
    (createdRecord seq p).horse_power = p.horse_power ∧
    (createdRecord seq p).model_name = p.model_name ∧
    (createdRecord seq p).model_year = p.model_year ∧
    (createdRecord seq p).purchase_price = p.purchase_price ∧
    (createdRecord seq p).fuel_type = p.fuel_type := by
  have hany : store.any (fun v => v.vin = generate_vin seq) = false := by
    rw [List.any_eq_false]
    intro v hv
    simp only [decide_eq_true_eq]
    intro he
    exact hfresh v hv (he ▸ rfl)
  have hcreate : create_vehicle store seq p =
      (.ok (createdRecord seq p), store ++ [createdRecord seq p]) := by
    simp [create_vehicle, hany]
  have hfind : findByVin (store ++ [createdRecord seq p])
      (createdRecord seq p).vin = some (createdRecord seq p) :=
    findByVin_append_self store (createdRecord seq p) hfresh
  refine ⟨by rw [hcreate], ?_, rfl, rfl, rfl, rfl, rfl, rfl, rfl⟩
  rw [hcreate]
  simp [get_vehicle_by_vin, catchAll, hfind]

/-- C9 witness: the round trip on the empty store at sequence value 1
with the sample payload. -/
theorem create_then_fetch_roundtrip_witness :
    (create_vehicle [] 1 pSampleV).1 = .ok (createdRecord 1 pSampleV) ∧
    get_vehicle_by_vin (create_vehicle [] 1 pSampleV).2 (createdRecord 1 pSampleV).vin =
      .ok (createdRecord 1 pSampleV) ∧
    (createdRecord 1 pSampleV).manufacturer_name = pSampleV.manufacturer_name ∧
    (createdRecord 1 pSampleV).description = pSampleV.description ∧
    (createdRecord 1 pSampleV).horse_power = pSampleV.horse_power ∧
    (createdRecord 1 pSampleV).model_name = pSampleV.model_name ∧
    (createdRecord 1 pSampleV).model_year = pSampleV.model_year ∧
    (createdRecord 1 pSampleV).purchase_price = pSampleV.purchase_price ∧
    (createdRecord 1 pSampleV).fuel_type = pSampleV.fuel_type :=
  create_then_fetch_roundtrip [] 1 pSampleV (by simp)

/-- C7: every scoped operation closes an acquired connection on every
exit path; when the body fails the transaction is rolled back and the
durable state is unchanged; when the body succeeds its result is
committed. -/
theorem scoped_transaction_discipline {σ ε : Type} (connectOk : Bool)
    (body : σ → Except ε σ) (db : σ) :
    (ConnEvent.connected ∈ (get_db_connection connectOk body db).2.2 →
      ConnEvent.closed ∈ (get_db_connection connectOk body db).2.2) ∧
    (∀ e, connectOk = true → body db = .error e →
      (get_db_connection connectOk body db).1 = db ∧
      (get_db_connection connectOk body db).2.1 = .opError e ∧
      ConnEvent.rolledBack ∈ (get_db_connection connectOk body db).2.2 ∧
      ConnEvent.closed ∈ (get_db_connection connectOk body db).2.2) ∧
    (∀ s, connectOk = true → body db = .ok s →
      (get_db_connection connectOk body db).1 = s ∧
      (get_db_connection connectOk body db).2.1 = .success s ∧
      ConnEvent.committed ∈ (get_db_connection connectOk body db).2.2 ∧
      ConnEvent.closed ∈ (get_db_connection connectOk body db).2.2) := by
  cases connectOk with
  | false =>
      refine ⟨?_, ?_, ?_⟩
      · intro hc; simp [get_db_connection] at hc
      · intro e hc; exact absurd hc (by simp)
      · intro s hc; exact absurd hc (by simp)
  | true =>
      cases hb : body db with
      | ok s' =>
          refine ⟨?_, ?_, ?_⟩
          · intro _; simp [get_db_connection, hb]
          · intro e _ he; exact Except.noConfusion he
          · intro s _ hs
            cases hs
            simp [get_db_connection, hb]
      | error e' =>
          refine ⟨?_, ?_, ?_⟩
          · intro _; simp [get_db_connection, hb]
          · intro e _ he
            cases he
            simp [get_db_connection, hb]
          · intro s _ hs; exact Except.noConfusion hs

/-- C7 witness: the discipline evaluated at a successful increment and at
a failing body over a `Nat` state. -/
theorem scoped_transaction_discipline_witness :
    ((get_db_connection true (fun n : Nat => (Except.ok (n + 1) : Except Nat Nat)) 0).1 = 1 ∧
      (get_db_connection true (fun n : Nat => (Except.ok (n + 1) : Except Nat Nat)) 0).2.1 = .success 1 ∧
      ConnEvent.committed ∈ (get_db_connection true (fun n : Nat => (Except.ok (n + 1) : Except Nat Nat)) 0).2.2 ∧
      ConnEvent.closed ∈ (get_db_connection true (fun n : Nat => (Except.ok (n + 1) : Except Nat Nat)) 0).2.2) ∧
    ((get_db_connection true (fun _ : Nat => (Except.error 7 : Except Nat Nat)) 5).1 = 5 ∧
      (get_db_connection true (fun _ : Nat => (Except.error 7 : Except Nat Nat)) 5).2.1 = .opError 7 ∧
      ConnEvent.rolledBack ∈ (get_db_connection true (fun _ : Nat => (Except.error 7 : Except Nat Nat)) 5).2.2 ∧
      ConnEvent.closed ∈ (get_db_connection true (fun _ : Nat => (Except.error 7 : Except Nat Nat)) 5).2.2) :=
  ⟨(scoped_transaction_discipline true (fun n : Nat => (Except.ok (n + 1) : Except Nat Nat)) 0).2.2 1 rfl rfl,
   (scoped_transaction_discipline true (fun _ : Nat => (Except.error 7 : Except Nat Nat)) 5).2.1 7 rfl rfl⟩

/-- C10: the health-check's 503 detail interpolates the underlying
exception's own message, while the CRUD handlers' catch-all answers a
fixed generic 500 detail independent of the caught exception. -/
theorem health_check_exposes_db_error (msg : String) (e : HttpError) :
    root (.error msg) =
      .error ⟨503, "Database connection failed: " ++ msg⟩ ∧
    @catchAll Vehicle "Failed to retrieve vehicle" (.error e) =
      .error ⟨500, "Failed to retrieve vehicle"⟩ ∧
    @catchAll Vehicle "Failed to update vehicle" (.error e) =
      .error ⟨500, "Failed to update vehicle"⟩ ∧
    @catchAll Unit "Failed to delete vehicle" (.error e) =
      .error ⟨500, "Failed to delete vehicle"⟩ :=
  ⟨rfl, rfl, rfl, rfl⟩

end VehicleApi
